import Mathlib

/-!
Verification of the retrieval-augmented question-answering core of the
document-assistant repository, as described by its design documents.

The development shallowly embeds the Python code of the repository's
design documents (cache manager, cache key generation, prompt-length
optimisation, retrieval candidate generation, input validation,
configuration defaults) and, where the repository only declares a
component without its algorithm (circuit breaker transitions,
degradation chain, conversation compression), models the missing part
from the specification text.  Machine integers are modelled as Nat,
floating-point scores and rates as rationals, Python strings as Lean
strings, and Python dicts as association lists.
-/

/-! ## Shared string helpers

Python slicing s[:n] and hex digests are used pervasively by the cache
key code.  Truncation is defined on the underlying character list so
that its length behaviour is transparent. -/

/-- Python string slice s[:n]: the first n characters of s. -/
def strTake (s : String) (n : Nat) : String :=
  ⟨s.data.take n⟩

/-- One lowercase hex digit for a value < 16. -/
def hexDigit (n : Nat) : Char :=
  if n < 10 then Char.ofNat (48 + n) else Char.ofNat (87 + n)

/-- Fixed-width lowercase hex rendering (most significant digit first). -/
def toHexFixed : Nat → Nat → List Char
  | 0, _ => []
  | w + 1, n => toHexFixed w (n / 16) ++ [hexDigit (n % 16)]

/-- Modelled from the spec: hashlib.md5 is an external library (out of
scope per the spec, which only relies on the digest being a
deterministic hex string derived from the input text).  Modelled as a
deterministic 128-bit polynomial fold rendered as the 32-character
lowercase hex digest that hashlib.md5(...).hexdigest() yields. -/
def md5_hexdigest (s : String) : String :=
  ⟨toHexFixed 32 (s.data.foldl (fun a c => (a * 131 + c.toNat) % (2 ^ 128)) 7)⟩

/-! ## CacheStats  (app/utils/cache_manager.py, design doc part_009)

class CacheStats:
    def __init__(self):
        self.hits = 0
        self.misses = 0
        self.sets = 0
        self.deletes = 0
        self.evictions = 0
    def hit_rate(self) -> float:
        total = self.hits + self.misses
        return self.hits / total if total > 0 else 0.0
-/

structure CacheStats where
  hits : Nat
  misses : Nat
  sets : Nat
  deletes : Nat
  evictions : Nat
  deriving Repr, DecidableEq

namespace CacheStats

/-- Fresh statistics, as produced by CacheStats.__init__. -/
def init : CacheStats := ⟨0, 0, 0, 0, 0⟩

/-- hit_rate: hits / (hits + misses) when a get has been recorded, else 0.0.
Python floats are modelled as rationals. -/
def hit_rate (s : CacheStats) : ℚ :=
  let total := s.hits + s.misses
  if 0 < total then (s.hits : ℚ) / (total : ℚ) else 0

end CacheStats

/-! ## Configuration defaults  (app/config.py, design doc part_009)

    CACHE_DEFAULT_TTL   = 3600
    CACHE_EMBEDDING_TTL = 7200
    CACHE_ANSWER_TTL    = 1800
    CACHE_CHUNK_TTL     = 14400
    RAG_CACHE_TTL       = 3600   (quick-start guide part_007)

os.getenv fallbacks are modelled by their documented default values. -/

namespace Config

def CACHE_DEFAULT_TTL : Nat := 3600
def CACHE_EMBEDDING_TTL : Nat := 7200
def CACHE_ANSWER_TTL : Nat := 1800
def CACHE_CHUNK_TTL : Nat := 14400
def RAG_CACHE_TTL : Nat := 3600

end Config

/-- CacheManager.__init__ wires the three caches with TTLs
RAG_CACHE_TTL, RAG_CACHE_TTL // 2 and RAG_CACHE_TTL * 2
(design doc part_009, lines 416-436). -/
structure CacheManagerTTLs where
  embedding_ttl : Nat
  answer_ttl : Nat
  chunk_ttl : Nat
  deriving Repr, DecidableEq

/-- The TTL wiring performed by CacheManager.__init__. -/
def cacheManagerInitTTLs : CacheManagerTTLs :=
  { embedding_ttl := Config.RAG_CACHE_TTL
    answer_ttl := Config.RAG_CACHE_TTL / 2
    chunk_ttl := Config.RAG_CACHE_TTL * 2 }

/-! ## CacheKeyGenerator  (app/utils/cache_manager.py, design doc part_009)

    @staticmethod
    def answer_key(question, literature_id, context_hash):
        question_hash = hashlib.md5(question.encode('utf-8')).hexdigest()[:8]
        return f"ans:{literature_id}:{question_hash}:{context_hash[:8]}"

    @staticmethod
    def context_hash(chunks):
        context_str = json.dumps([c.get('text', '')[:100] for c in chunks],
                                 sort_keys=True)
        return hashlib.md5(context_str.encode('utf-8')).hexdigest()[:16]
-/

/-- A retrieved context chunk as handed to the cache layer: a dict with a
text field (the only field context_hash reads). -/
structure CtxChunk where
  text : String
  deriving Repr, DecidableEq

namespace CacheKeyGenerator

/-- embedding_key: "emb:{model}:{md5(text)[:12]}". -/
def embedding_key (text : String) (model : String := "default") : String :=
  "emb:" ++ model ++ ":" ++ strTake (md5_hexdigest text) 12

/-- answer_key: "ans:{literature_id}:{md5(question)[:8]}:{context_hash[:8]}". -/
def answer_key (question : String) (literature_id : String)
    (context_hash : String) : String :=
  "ans:" ++ literature_id ++ ":" ++ strTake (md5_hexdigest question) 8
    ++ ":" ++ strTake context_hash 8

/-- json.dumps of the list of truncated chunk texts (sort_keys is a no-op
on a JSON array of strings). -/
def context_str (chunks : List CtxChunk) : String :=
  "[" ++ String.intercalate ", "
      (chunks.map (fun c => "\x22" ++ strTake c.text 100 ++ "\x22")) ++ "]"

/-- context_hash: md5 hex digest of the serialized truncated texts,
truncated to 16 characters — the retrieved-context fingerprint. -/
def context_hash (chunks : List CtxChunk) : String :=
  strTake (md5_hexdigest (context_str chunks)) 16

end CacheKeyGenerator

/-! ## CacheManager answer cache  (app/utils/cache_manager.py, part_009)

    def get_answer(self, question, literature_id, context_chunks):
        context_hash = CacheKeyGenerator.context_hash(context_chunks)
        key = CacheKeyGenerator.answer_key(question, literature_id, context_hash)
        cached = self.answer_cache.get(key)
        if cached is not None:
            self.stats.hits += 1
            cached['metadata']['cache_hit'] = True
            cached['metadata']['retrieved_at'] = datetime.now().isoformat()
            return cached
        self.stats.misses += 1
        return None

    def set_answer(self, question, literature_id, context_chunks, answer_data):
        context_hash = CacheKeyGenerator.context_hash(context_chunks)
        key = CacheKeyGenerator.answer_key(question, literature_id, context_hash)
        cached_answer = answer_data.copy()
        cached_answer['metadata']['cached_at'] = datetime.now().isoformat()
        cached_answer['metadata']['context_hash'] = context_hash
        return self.answer_cache.set(key, cached_answer)

Python dict values in the metadata sub-dict are strings or booleans, so
they are modelled by a small sum type; dict assignment is replace-or-append
on an association list.  datetime.now() is threaded in as an explicit
timestamp string.  The MemoryCacheBackend's TTLCache is modelled as an
association list (time-based expiry is irrelevant to an immediate
set-then-get round trip). -/

/-- A metadata dict value: a string or a boolean. -/
inductive MVal where
  | str (v : String)
  | flag (v : Bool)
  deriving Repr, DecidableEq

/-- Python dict assignment d[k] = v: replace the existing binding in
place, else append. -/
def dictSet {α : Type} : List (String × α) → String → α → List (String × α)
  | [], k, v => [(k, v)]
  | (k0, v0) :: rest, k, v =>
      if k0 = k then (k, v) :: rest else (k0, v0) :: dictSet rest k v

/-- Python dict lookup d.get(k). -/
def dictGet {α : Type} : List (String × α) → String → Option α
  | [], _ => none
  | (k0, v0) :: rest, k => if k0 = k then some v0 else dictGet rest k

/-- The structured answer stored in the answer cache: the generated
answer, its cited sources, the confidence score and a metadata dict. -/
structure AnswerData where
  answer : String
  sources : List String
  confidence : ℚ
  metadata : List (String × MVal)
  deriving Repr, DecidableEq

/-- The answer cache contents (MemoryCacheBackend, key → value). -/
def AnswerCache := List (String × AnswerData)

namespace CacheManager

/-- set_answer: store answer_data, augmenting its metadata with the
cached_at timestamp and the context_hash fingerprint. -/
def set_answer (now : String) (question literature_id : String)
    (context_chunks : List CtxChunk) (answer_data : AnswerData)
    (cache : AnswerCache) : AnswerCache :=
  let ch := CacheKeyGenerator.context_hash context_chunks
  let key := CacheKeyGenerator.answer_key question literature_id ch
  let cached_answer :=
    { answer_data with
        metadata := dictSet (dictSet answer_data.metadata
          "cached_at" (MVal.str now)) "context_hash" (MVal.str ch) }
  dictSet cache key cached_answer

/-- get_answer: look the key up; on a hit, bump the hit counter and return
the cached value with cache_hit / retrieved_at stamped into its metadata;
on a miss bump the miss counter. -/
def get_answer (now : String) (question literature_id : String)
    (context_chunks : List CtxChunk) (cache : AnswerCache)
    (stats : CacheStats) : Option AnswerData × CacheStats :=
  let ch := CacheKeyGenerator.context_hash context_chunks
  let key := CacheKeyGenerator.answer_key question literature_id ch
  match dictGet cache key with
  | some cached =>
      (some { cached with
          metadata := dictSet (dictSet cached.metadata
            "cache_hit" (MVal.flag true)) "retrieved_at" (MVal.str now) },
       { stats with hits := stats.hits + 1 })
  | none => (none, { stats with misses := stats.misses + 1 })

end CacheManager

/-! ## Prompt length optimisation  (design doc part_000, lines 236-252)

    def optimize_prompt_length(context_chunks, max_tokens=3000):
        sorted_chunks = sort_by_relevance_score(context_chunks)
        selected_chunks = []
        current_tokens = base_prompt_tokens
        for chunk in sorted_chunks:
            chunk_tokens = estimate_tokens(chunk.text)
            if current_tokens + chunk_tokens <= max_tokens:
                selected_chunks.append(chunk)
                current_tokens += chunk_tokens
            else:
                break
        return selected_chunks

base_prompt_tokens is a free variable of the snippet (the reserved budget
for the fixed template skeleton) and is passed explicitly here. -/

/-- A candidate chunk as seen by prompt assembly. -/
structure PromptChunk where
  text : String
  relevance_score : ℚ
  deriving Repr, DecidableEq

/-- Modelled from the spec: estimate_tokens is not defined in the
repository; the spec only requires a token estimate of a text.  Modelled
as the usual four-characters-per-token heuristic. -/
def estimate_tokens (text : String) : Nat :=
  text.length / 4

/-- Insert a chunk into a list sorted by descending relevance score. -/
def insertByScoreDesc (c : PromptChunk) : List PromptChunk → List PromptChunk
  | [] => [c]
  | d :: rest =>
      if d.relevance_score ≤ c.relevance_score then c :: d :: rest
      else d :: insertByScoreDesc c rest

/-- sort_by_relevance_score: stable sort by descending relevance. -/
def sort_by_relevance_score : List PromptChunk → List PromptChunk
  | [] => []
  | c :: rest => insertByScoreDesc c (sort_by_relevance_score rest)

/-- The selection loop of optimize_prompt_length: greedily take chunks
while the running token count stays within max_tokens, stopping at the
first chunk that would overflow. -/
def select_within_budget (max_tokens : Nat) :
    List PromptChunk → Nat → List PromptChunk
  | [], _ => []
  | c :: rest, current_tokens =>
      if current_tokens + estimate_tokens c.text ≤ max_tokens then
        c :: select_within_budget max_tokens rest
              (current_tokens + estimate_tokens c.text)
      else []

/-- optimize_prompt_length: sort by relevance, then greedily select within
the token budget.  The function is total: the source raises no error and
returns the (possibly empty) selection. -/
def optimize_prompt_length (base_prompt_tokens : Nat)
    (context_chunks : List PromptChunk) (max_tokens : Nat := 3000) :
    List PromptChunk :=
  select_within_budget max_tokens
    (sort_by_relevance_score context_chunks) base_prompt_tokens

/-! ## Retrieval candidate generation  (design doc part_000)

    def retrieve_chunks(question, literature_id, top_k=10):        # lines 70-81
        vector_results = vector_search(question_embedding, top_k*2)
        keyword_results = keyword_search(extract_keywords(question))
        merged_results = merge_and_rerank(vector_results, keyword_results)
        return merged_results[:top_k]

    class HierarchicalRetrieval:                                   # lines 218-229
        def retrieve(self, question, literature_id, top_k=5):
            rough_candidates = self.rough_search(question, top_k*4)
            precise_results = self.precise_rerank(question, rough_candidates)
            optimized_results = self.context_optimize(precise_results[:top_k])
            return optimized_results

The helpers (vector_search, keyword_search, extract_keywords,
merge_and_rerank, rough_search, precise_rerank, context_optimize) are free
names of the snippets, undefined in the repository; they are taken as
function parameters.  Candidates are an arbitrary type.  The second
component of each result records the breadth argument that was passed to
the candidate-generation search call, so that the requested breadth is
part of the observable behaviour. -/

/-- retrieve_chunks: vector search at top_k*2 breadth plus an independent
keyword candidate set, fused and truncated to top_k. -/
def retrieve_chunks {α : Type} (vector_search : List ℚ → Nat → List α)
    (keyword_search : List String → List α)
    (extract_keywords : String → List String)
    (merge_and_rerank : List α → List α → List α)
    (question_embedding : List ℚ) (question : String)
    (top_k : Nat := 10) : List α × Nat :=
  let breadth := top_k * 2
  let vector_results := vector_search question_embedding breadth
  let keyword_results := keyword_search (extract_keywords question)
  let merged_results := merge_and_rerank vector_results keyword_results
  (merged_results.take top_k, breadth)

/-- HierarchicalRetrieval.retrieve: rough search at top_k*4 breadth, then
precise rerank and context optimisation of the top_k survivors. -/
def hierarchical_retrieve {α : Type} (rough_search : String → Nat → List α)
    (precise_rerank : String → List α → List α)
    (context_optimize : List α → List α)
    (question : String) (top_k : Nat := 5) : List α × Nat :=
  let breadth := top_k * 4
  let rough_candidates := rough_search question breadth
  let precise_results := precise_rerank question rough_candidates
  (context_optimize (precise_results.take top_k), breadth)

/-! ## Input validation  (design doc part_000 lines 278-293, and the
QARequest model of the API phase plan in test_api_manual.md)

    class InputValidator:
        def validate_question(self, question: str) -> bool:
            if len(question) > 1000:
                raise ValueError("question too long")
            if self.contains_unsafe_content(question):
                raise ValueError("improper content")
            if self.detect_injection_attempt(question):
                raise ValueError("injection attempt detected")
            return True

    class QARequest(BaseModel):
        question: str = Field(..., min_length=1, max_length=1000)

The pydantic request model is validated by the framework before the /ai/ask
handler body runs, so its min_length/max_length constraints reject an
empty or over-length question with a request-validation error (documented
as HTTP 400 in the API documentation) before any retrieval work; the
content checks contains_unsafe_content / detect_injection_attempt are
undefined in the repository and are taken as parameters. -/

inductive ValidationError where
  /-- pydantic QARequest field violation (min_length=1 / max_length=1000),
  surfaced as HTTP 400. -/
  | request_invalid
  /-- InputValidator: len(question) > 1000. -/
  | question_too_long
  /-- InputValidator: improper content. -/
  | improper_content
  /-- InputValidator: injection attempt detected. -/
  | injection_attempt
  deriving Repr, DecidableEq

/-- InputValidator.validate_question; raised ValueErrors become error
results. -/
def validate_question (content_check injection_check : String → Bool)
    (question : String) : Except ValidationError Bool :=
  if 1000 < question.length then .error .question_too_long
  else if content_check question then .error .improper_content
  else if injection_check question then .error .injection_attempt
  else .ok true

/-- The QARequest question-field validation performed by the framework
before the handler runs. -/
def validate_qarequest_question (question : String) : Except ValidationError Unit :=
  if question.length < 1 then .error .request_invalid
  else if 1000 < question.length then .error .request_invalid
  else .ok ()

/-- The question intake path: request-model validation, then
InputValidator, and only then retrieval. -/
def ask_pipeline {α : Type} (content_check injection_check : String → Bool)
    (retrieve : String → List α) (question : String) :
    Except ValidationError (List α) :=
  match validate_qarequest_question question with
  | .error e => .error e
  | .ok _ =>
      match validate_question content_check injection_check question with
      | .error e => .error e
      | .ok _ => .ok (retrieve question)

/-! ## Circuit breaker  (design doc part_000, lines 176-183)

    class CircuitBreaker:
        def __init__(self, failure_threshold=5, recovery_timeout=60):
            self.failure_count = 0
            self.failure_threshold = failure_threshold
            self.recovery_timeout = recovery_timeout
            self.state = "CLOSED"  # CLOSED, OPEN, HALF_OPEN
            self.last_failure_time = None

Only the constructor exists in the repository (the test manual's
AIServiceCircuitBreaker.call_ai_service is likewise an empty skeleton);
the transition logic is modelled from the spec, §4.5. -/

/-- The three circuit states CLOSED / OPEN / HALF_OPEN. -/
inductive CBState where
  | closed
  | opened
  | halfOpen
  deriving Repr, DecidableEq

structure CircuitBreaker where
  failure_count : Nat
  failure_threshold : Nat
  recovery_timeout : Nat
  state : CBState
  last_failure_time : Option Nat
  deriving Repr, DecidableEq

/-- The outcome of a call attempted against the external dependency. -/
inductive CallOutcome where
  | success
  | failure
  deriving Repr, DecidableEq

namespace CircuitBreaker

/-- CircuitBreaker.__init__ with its source defaults. -/
def init (failure_threshold : Nat := 5) (recovery_timeout : Nat := 60) :
    CircuitBreaker :=
  ⟨0, failure_threshold, recovery_timeout, CBState.closed, none⟩

/-- Modelled from the spec: the admission decision taken before contacting
the dependency (transitions of §4.5 and the single-trial rule of §5).
Closed passes calls through; Open rejects fast until recovery_timeout has
elapsed since the failure that opened the circuit, then moves to HalfOpen
and admits the trial call; while a HalfOpen trial is in flight further
callers are rejected. -/
def beforeCall (cb : CircuitBreaker) (now : Nat) : CircuitBreaker × Bool :=
  match cb.state with
  | CBState.closed => (cb, true)
  | CBState.opened =>
      match cb.last_failure_time with
      | some t =>
          if t + cb.recovery_timeout ≤ now then
            ({ cb with state := CBState.halfOpen }, true)
          else (cb, false)
      | none => (cb, false)
  | CBState.halfOpen => (cb, false)

/-- Modelled from the spec: a successful admitted call closes the circuit
and resets the consecutive-failure counter. -/
def onSuccess (cb : CircuitBreaker) : CircuitBreaker :=
  { cb with failure_count := 0, state := CBState.closed }

/-- Modelled from the spec: a failed admitted call; a HalfOpen trial
failure reopens the circuit and restarts the timeout, a Closed failure
increments the counter and opens the circuit on reaching
failure_threshold. -/
def onFailure (cb : CircuitBreaker) (now : Nat) : CircuitBreaker :=
  match cb.state with
  | CBState.halfOpen =>
      { cb with state := CBState.opened, last_failure_time := some now }
  | _ =>
      let fc := cb.failure_count + 1
      if cb.failure_threshold ≤ fc then
        { cb with failure_count := fc, state := CBState.opened,
                  last_failure_time := some now }
      else
        { cb with failure_count := fc, last_failure_time := some now }

/-- Modelled from the spec: one call attempt at time now whose execution,
if admitted, has the given outcome.  Returns the new breaker state and
whether the call was let through. -/
def call (cb : CircuitBreaker) (now : Nat) (outcome : CallOutcome) :
    CircuitBreaker × Bool :=
  let p := cb.beforeCall now
  if p.2 then
    match outcome with
    | CallOutcome.success => (p.1.onSuccess, true)
    | CallOutcome.failure => (p.1.onFailure now, true)
  else (p.1, false)

/-- Apply a sequence of failing calls at the given times. -/
def applyFailures (cb : CircuitBreaker) : List Nat → CircuitBreaker
  | [] => cb
  | t :: ts => applyFailures (cb.call t CallOutcome.failure).1 ts

end CircuitBreaker

/-! ## Degradation chain  (design doc part_000, lines 185-189)

The repository lists the tiers only as text (1. prefer cached answers,
2. return the relevant document chunks without AI synthesis, 3./4. canned
fallback text); no executable chain exists, so it is modelled from the
spec, §4.5: (1) cached answer for an equivalent fingerprint, (2) raw top
retrieved chunks labeled as unsummarized sources, (3) static apology with
retry guidance. -/

/-- Which fallback tier produced a degraded response. -/
inductive DegradedTier where
  | cached_answer
  | raw_sources
  | apology
  deriving Repr, DecidableEq

/-- A degraded response: the tier label (machine-distinguishable, per the
spec) and the served text. -/
structure DegradedResponse where
  tier : DegradedTier
  text : String
  deriving Repr, DecidableEq

/-- Modelled from the spec: the degradation chain.  cached_answer is the
answer-cache probe result for the question's fingerprint;
retrieved_chunks is some when the retrieval path is available. -/
def degradation_chain (cached_answer : Option String)
    (retrieved_chunks : Option (List String)) : DegradedResponse :=
  match cached_answer with
  | some a => ⟨DegradedTier.cached_answer, a⟩
  | none =>
      match retrieved_chunks with
      | some chunks =>
          ⟨DegradedTier.raw_sources,
            "unsummarized sources: " ++ String.intercalate "; " chunks⟩
      | none =>
          ⟨DegradedTier.apology,
            "Sorry, the assistant is temporarily unavailable. Please retry in a moment."⟩

/-- A response of the answer operation: a full generated answer or a
degraded one. -/
inductive RAGResult where
  | full (answer : String)
  | degraded (r : DegradedResponse)
  deriving Repr, DecidableEq

/-- Modelled from the spec: the chain is invoked whenever the generation
path is reported unavailable (circuit Open) or the live generation call
itself fails; otherwise the live answer is returned in full. -/
def generate_with_fallback (circuit_open : Bool) (live : Option String)
    (cached_answer : Option String)
    (retrieved_chunks : Option (List String)) : RAGResult :=
  if circuit_open then
    RAGResult.degraded (degradation_chain cached_answer retrieved_chunks)
  else
    match live with
    | some a => RAGResult.full a
    | none =>
        RAGResult.degraded (degradation_chain cached_answer retrieved_chunks)

/-! ## Conversation context window  (design doc part_000, lines 93-98)

    class ConversationContext:
        recent_turns: List[QATurn]
        key_entities: Dict[str, float]
        topic_summary: str
        context_tokens: int

Only the data shape exists in the repository (conversation_manager's
compress_history is an empty skeleton); getContextWindow and its
compression loop are modelled from the spec, §4.3: retain the most recent
N turns verbatim, extract recurring salient terms into key_entities with
distance-decaying weights, collapse everything older into a short
topic_summary, and drop retained turns one by one while the token
estimate exceeds the budget (the spec's invariant requires the final
window, summary included, to fit the budget). -/

/-- One conversation turn as seen by compression. -/
structure QATurn where
  question : String
  answer : String
  deriving Repr, DecidableEq

/-- Token estimate of a turn. -/
def turn_tokens (t : QATurn) : Nat :=
  estimate_tokens t.question + estimate_tokens t.answer

/-- Salient terms of a turn: whitespace-separated words of length ≥ 5. -/
def turn_terms (t : QATurn) : List String :=
  ((t.question.splitOn " ") ++ (t.answer.splitOn " ")).filter
    (fun w => 5 ≤ w.length)

/-- Accumulate one occurrence of a term into the entity weight map. -/
def add_entity (m : List (String × ℚ)) (w : String) (wt : ℚ) :
    List (String × ℚ) :=
  match dictGet m w with
  | some old => dictSet m w (old + wt)
  | none => dictSet m w wt

/-- Modelled from the spec: key-entity extraction — each reappearance of a
term increases its weight, and the contribution decays with the turn's
distance from the retained window (turn i of n contributes 1/(n-i)). -/
def extract_key_entities (older : List QATurn) : List (String × ℚ) :=
  let n := older.length
  older.enum.foldl
    (fun m p =>
      (turn_terms p.2).foldl
        (fun m w => add_entity m w (1 / ((n - p.1 : Nat) : ℚ))) m)
    []

/-- Modelled from the spec: collapse the turns older than the retained
window into a short topic summary. -/
def summarize_turns (older : List QATurn) : String :=
  strTake (String.intercalate "; " (older.map (fun t => t.question))) 200

/-- Token estimate of a candidate window. -/
def window_tokens (recent : List QATurn) (summary : String) : Nat :=
  (recent.map turn_tokens).sum + estimate_tokens summary

/-- The derived, bounded view over a session's turns. -/
structure ContextWindow where
  recent_turns : List QATurn
  key_entities : List (String × ℚ)
  topic_summary : String
  estimated_token_count : Nat
  deriving Repr

/-- Modelled from the spec: the compression loop — while the estimate
exceeds the budget, move the oldest retained turn into the summarized
prefix and re-summarize; once no retained turn is left, the summary itself
is cut to the budget (the spec's invariant makes the final window fit the
budget unconditionally). -/
def compress_window (token_budget : Nat) (older : List QATurn) :
    List QATurn → ContextWindow
  | [] =>
      let summary := summarize_turns older
      if estimate_tokens summary ≤ token_budget then
        ⟨[], extract_key_entities older, summary, estimate_tokens summary⟩
      else
        let s := strTake summary (4 * token_budget)
        ⟨[], extract_key_entities older, s, estimate_tokens s⟩
  | t :: rest =>
      let summary := summarize_turns older
      let tk := window_tokens (t :: rest) summary
      if tk ≤ token_budget then
        ⟨t :: rest, extract_key_entities older, summary, tk⟩
      else compress_window token_budget (older ++ [t]) rest

/-- Default number of most-recent turns retained verbatim (spec: 5-10). -/
def RECENT_TURNS_RETAINED : Nat := 5

/-- Modelled from the spec: getContextWindow — split the history into the
most recent retained turns and the older remainder, then compress. -/
def get_context_window (history : List QATurn) (token_budget : Nat) :
    ContextWindow :=
  let keep := RECENT_TURNS_RETAINED
  let older := history.take (history.length - keep)
  let recent := history.drop (history.length - keep)
  compress_window token_budget older recent

theorem strTake_length (s : String) (n : Nat) :
    (strTake s n).length ≤ n := by
  have h : (strTake s n).length = (s.data.take n).length := rfl
  rw [h, List.length_take]
  exact min_le_left _ _

theorem dictGet_dictSet {α : Type} (m : List (String × α)) (k : String) (v : α) :
    dictGet (dictSet m k v) k = some v := by
  induction m with
  | nil => simp [dictSet, dictGet]
  | cons hd tl ih =>
      obtain ⟨k0, v0⟩ := hd
      by_cases h : k0 = k
      · simp [dictSet, dictGet, h]
      · simp [dictSet, dictGet, h, ih]

theorem mem_insertByScoreDesc {c d : PromptChunk} {l : List PromptChunk}
    (h : d ∈ insertByScoreDesc c l) : d = c ∨ d ∈ l := by
  induction l with
  | nil => simpa [insertByScoreDesc] using h
  | cons e rest ih =>
      by_cases hle : e.relevance_score ≤ c.relevance_score
      · simp only [insertByScoreDesc, if_pos hle, List.mem_cons] at h
        rcases h with h | h | h
        · exact Or.inl h
        · exact Or.inr (by simp [h])
        · exact Or.inr (by simp [h])
      · simp only [insertByScoreDesc, if_neg hle, List.mem_cons] at h
        rcases h with h | h
        · exact Or.inr (by simp [h])
        · rcases ih h with h1 | h1
          · exact Or.inl h1
          · exact Or.inr (by simp [h1])

theorem mem_sort_by_relevance_score {d : PromptChunk} {l : List PromptChunk}
    (h : d ∈ sort_by_relevance_score l) : d ∈ l := by
  induction l with
  | nil => simp [sort_by_relevance_score] at h
  | cons c rest ih =>
      simp only [sort_by_relevance_score] at h
      rcases mem_insertByScoreDesc h with h1 | h1
      · simp [h1]
      · exact List.mem_cons_of_mem _ (ih h1)

/-- Left cancellation for string append, used to compare generated keys. -/
theorem string_append_left_cancel {a b c : String}
    (h : a ++ b = a ++ c) : b = c := by
  have hd : a.data ++ b.data = a.data ++ c.data := by
    rw [← String.data_append, ← String.data_append, h]
  have hbc : b.data = c.data := List.append_cancel_left hd
  cases b; cases c
  exact congrArg String.mk hbc

theorem applyFailures_append (cb : CircuitBreaker) (ts1 ts2 : List Nat) :
    cb.applyFailures (ts1 ++ ts2) = (cb.applyFailures ts1).applyFailures ts2 := by
  induction ts1 generalizing cb with
  | nil => simp [CircuitBreaker.applyFailures]
  | cons t rest ih => simp [CircuitBreaker.applyFailures, ih]

theorem applyFailures_closed :
    ∀ (ts : List Nat) (cb : CircuitBreaker), cb.state = CBState.closed →
      cb.failure_count + ts.length < cb.failure_threshold →
      (cb.applyFailures ts).state = CBState.closed ∧
      (cb.applyFailures ts).failure_count = cb.failure_count + ts.length ∧
      (cb.applyFailures ts).failure_threshold = cb.failure_threshold ∧
      (cb.applyFailures ts).recovery_timeout = cb.recovery_timeout := by
  intro ts
  induction ts with
  | nil =>
      intro cb h1 _
      simp [CircuitBreaker.applyFailures, h1]
  | cons t rest ih =>
      intro cb h1 h2
      obtain ⟨fc, ft, rt, st, lft⟩ := cb
      simp only [List.length_cons] at h2
      have hst : st = CBState.closed := h1
      subst hst
      have hlt : ¬ (ft ≤ fc + 1) := by omega
      have hstep :
          (CircuitBreaker.mk fc ft rt CBState.closed lft).call t
              CallOutcome.failure
            = (⟨fc + 1, ft, rt, CBState.closed, some t⟩, true) := by
        simp [CircuitBreaker.call, CircuitBreaker.beforeCall,
          CircuitBreaker.onFailure, hlt]
      simp only [CircuitBreaker.applyFailures, hstep]
      have hres := ih ⟨fc + 1, ft, rt, CBState.closed, some t⟩ rfl
        (by show fc + 1 + rest.length < ft; omega)
      simp only [List.length_cons]
      refine ⟨hres.1, ?_, hres.2.2.1, hres.2.2.2⟩
      rw [hres.2.1]
      show fc + 1 + rest.length = fc + (rest.length + 1)
      omega

theorem compress_window_le (token_budget : Nat) :
    ∀ (recent older : List QATurn),
      (compress_window token_budget older recent).estimated_token_count
        ≤ token_budget := by
  intro recent
  induction recent with
  | nil =>
      intro older
      by_cases h : estimate_tokens (summarize_turns older) ≤ token_budget
      · simp [compress_window, h]
      · simp only [compress_window, if_neg h]
        calc estimate_tokens (strTake (summarize_turns older) (4 * token_budget))
            = (strTake (summarize_turns older) (4 * token_budget)).length / 4 := rfl
          _ ≤ (4 * token_budget) / 4 :=
              Nat.div_le_div_right (strTake_length _ _)
          _ = token_budget := by omega
  | cons t rest ih =>
      intro older
      by_cases h : window_tokens (t :: rest) (summarize_turns older) ≤ token_budget
      · simp [compress_window, h]
      · simp only [compress_window, if_neg h]
        exact ih (older ++ [t])

/-- Claim C1, as stated, is false on the code: answer_key truncates the
retrieved-context fingerprint to its first 8 characters, so two calls with
identical question text and identical document identifier but distinct
fingerprints that agree on their first 8 characters produce the same
answer-cache key. -/
theorem answer_key_fingerprint_collision :
    ("aaaaaaaa00000000" : String) ≠ "aaaaaaaa11111111" ∧
    CacheKeyGenerator.answer_key "q" "lit1" "aaaaaaaa00000000"
      = CacheKeyGenerator.answer_key "q" "lit1" "aaaaaaaa11111111" :=
  ⟨by decide, by rfl⟩

/-- Claim C1 (amended): two calls to answer-cache key construction with
identical question text and identical document identifier produce distinct
keys whenever the retrieved-context fingerprints differ within their first
8 characters (the portion the key retains). -/
theorem answer_key_distinct_of_fingerprint_head_ne
    (question literature_id ch1 ch2 : String)
    (h : strTake ch1 8 ≠ strTake ch2 8) :
    CacheKeyGenerator.answer_key question literature_id ch1
      ≠ CacheKeyGenerator.answer_key question literature_id ch2 := by
  intro heq
  exact h (string_append_left_cancel heq)

/-- Witness for claim C1's amended theorem at concrete inputs. -/
theorem answer_key_distinct_witness :
    CacheKeyGenerator.answer_key "q" "lit1" "0123456789abcdef"
      ≠ CacheKeyGenerator.answer_key "q" "lit1" "fedcba9876543210" :=
  answer_key_distinct_of_fingerprint_head_ne "q" "lit1"
    "0123456789abcdef" "fedcba9876543210" (by decide)

/-- Claim C9, as stated, is false on the code: under the default cache
configuration the embedding-cache TTL (7200 s) is not the maximum of the
three TTLs — the chunk cache lives longer (14400 s), both in the Config
defaults and in the CacheManager.__init__ wiring (ttl vs ttl * 2). -/
theorem embedding_ttl_not_max :
    ¬ (Config.CACHE_CHUNK_TTL ≤ Config.CACHE_EMBEDDING_TTL) ∧
    ¬ (cacheManagerInitTTLs.chunk_ttl ≤ cacheManagerInitTTLs.embedding_ttl) := by
  decide

/-- Claim C9 (amended): under the default cache configuration the answer
cache has the minimum TTL of the three caches, and the chunk cache (not
the embedding cache) has the maximum; the embedding TTL lies strictly
between, in both the Config defaults and the CacheManager.__init__
wiring. -/
theorem cache_ttl_order :
    Config.CACHE_ANSWER_TTL < Config.CACHE_EMBEDDING_TTL ∧
    Config.CACHE_EMBEDDING_TTL < Config.CACHE_CHUNK_TTL ∧
    cacheManagerInitTTLs.answer_ttl < cacheManagerInitTTLs.embedding_ttl ∧
    cacheManagerInitTTLs.embedding_ttl < cacheManagerInitTTLs.chunk_ttl := by
  decide

/-- Claim C10: the reported hit rate equals hits / (hits + misses) when at
least one get has been recorded, equals 0 when none has, and is always
between 0 and 1 inclusive. -/
theorem hit_rate_spec (s : CacheStats) :
    (0 < s.hits + s.misses →
      s.hit_rate = (s.hits : ℚ) / ((s.hits : ℚ) + (s.misses : ℚ))) ∧
    (s.hits + s.misses = 0 → s.hit_rate = 0) ∧
    0 ≤ s.hit_rate ∧ s.hit_rate ≤ 1 := by
  unfold CacheStats.hit_rate
  by_cases h : 0 < s.hits + s.misses
  · have hpos : (0 : ℚ) < (s.hits : ℚ) + (s.misses : ℚ) := by
      exact_mod_cast h
    refine ⟨fun _ => by push_cast [if_pos h]; ring_nf, fun h0 => by omega, ?_, ?_⟩
    · simp only [if_pos h]
      positivity
    · simp only [if_pos h]
      apply div_le_one_of_le₀
      · push_cast
        nlinarith [Nat.cast_nonneg (α := ℚ) s.misses]
      · positivity
  · simp only [if_neg h]
    exact ⟨fun hc => absurd hc h, fun _ => trivial, le_refl 0, zero_le_one⟩

/-- Claim C5, as stated, is false on the code: an answer-cache get after a
set with the identical (question, document, context fingerprint) triple is
a hit, but the value returned is not the structured answer that was
stored — set_answer stamps cached_at / context_hash and get_answer stamps
cache_hit / retrieved_at into its metadata. -/
theorem get_after_set_alters_value :
    (CacheManager.get_answer "T1" "q" "L" [⟨"text"⟩]
        (CacheManager.set_answer "T0" "q" "L" [⟨"text"⟩]
          ⟨"ans", ["s1"], 1, []⟩ []) CacheStats.init).1
      ≠ some ⟨"ans", ["s1"], 1, []⟩ ∧
    (CacheManager.get_answer "T1" "q" "L" [⟨"text"⟩]
        (CacheManager.set_answer "T0" "q" "L" [⟨"text"⟩]
          ⟨"ans", ["s1"], 1, []⟩ []) CacheStats.init).1
      ≠ none := by
  decide

/-- Claim C5 (amended): a get after a set with the identical triple is
always a hit and returns the stored structured answer unchanged in its
answer, sources and confidence fields; only the metadata dict differs,
deterministically augmented with the cache bookkeeping entries cached_at,
context_hash, cache_hit and retrieved_at. -/
theorem answer_cache_round_trip (now retrieved_now question literature_id : String)
    (context_chunks : List CtxChunk) (answer_data : AnswerData)
    (cache : AnswerCache) (stats : CacheStats) :
    (CacheManager.get_answer retrieved_now question literature_id context_chunks
        (CacheManager.set_answer now question literature_id context_chunks
          answer_data cache) stats).1
      = some { answer_data with
          metadata := dictSet (dictSet (dictSet (dictSet answer_data.metadata
              "cached_at" (MVal.str now))
              "context_hash"
              (MVal.str (CacheKeyGenerator.context_hash context_chunks)))
              "cache_hit" (MVal.flag true))
              "retrieved_at" (MVal.str retrieved_now) } := by
  unfold CacheManager.get_answer CacheManager.set_answer
  simp [dictGet_dictSet]

/-- Claim C2, as stated, is false on the code: with a budget below the
smallest chunk's estimate, optimize_prompt_length silently returns the
empty selection — the function is total and raises no BudgetExceededError
(no such error exists anywhere in the repository). -/
theorem optimize_prompt_length_returns_empty_silently :
    (10 : Nat) < 0 + estimate_tokens (String.mk (List.replicate 100 'a')) ∧
    optimize_prompt_length 0
      [PromptChunk.mk (String.mk (List.replicate 100 'a')) 1] 10 = [] := by
  decide

/-- Claim C2 (amended): if no chunk fits within the budget (every chunk's
token estimate added to the reserved base exceeds max_tokens), prompt
optimisation returns the empty chunk selection; no error is raised. -/
theorem optimize_prompt_length_empty_of_none_fit
    (base_prompt_tokens max_tokens : Nat) (context_chunks : List PromptChunk)
    (h : ∀ c ∈ context_chunks,
      max_tokens < base_prompt_tokens + estimate_tokens c.text) :
    optimize_prompt_length base_prompt_tokens context_chunks max_tokens = [] := by
  unfold optimize_prompt_length
  cases hs : sort_by_relevance_score context_chunks with
  | nil => simp [select_within_budget]
  | cons c rest =>
      have hc : c ∈ context_chunks :=
        mem_sort_by_relevance_score (l := context_chunks) (by rw [hs]; simp)
      have hbig : ¬ (base_prompt_tokens + estimate_tokens c.text ≤ max_tokens) := by
        have := h c hc
        omega
      simp [select_within_budget, hbig]

/-- Witness for claim C2's amended theorem at concrete inputs. -/
theorem optimize_prompt_length_empty_witness :
    optimize_prompt_length 5 [PromptChunk.mk "aaaaaaaaaaaaaaaaaaaaaaaa" 1] 5 = [] :=
  optimize_prompt_length_empty_of_none_fit 5 5
    [PromptChunk.mk "aaaaaaaaaaaaaaaaaaaaaaaa" 1] (by decide)

/-- Claim C7, as stated, is false on the code: the dual-path candidate
generation of retrieve_chunks requests 2*top_k vector candidates, not
4*top_k — at top_k = 5 the vector similarity search is invoked at breadth
10, and 10 ≠ 4 * 5. -/
theorem retrieve_chunks_breadth_counterexample :
    (retrieve_chunks (α := Nat) (fun _ n => List.range n) (fun _ => [])
        (fun _ => []) (fun a b => a ++ b) [] "What method was used?" 5).2
      = 2 * 5 ∧
    (2 * 5 : Nat) ≠ 4 * 5 := by
  decide

/-- Claim C7 (amended): the dual-path rough candidate generation
(retrieve_chunks) requests 2*top_k vector candidates alongside the
independent keyword candidate set; the 4*top_k breadth belongs to the
separate hierarchical retrieval's rough search stage, which has no
independent lexical path. -/
theorem retrieval_request_breadths {α : Type}
    (vector_search : List ℚ → Nat → List α)
    (keyword_search : List String → List α)
    (extract_keywords : String → List String)
    (merge_and_rerank : List α → List α → List α)
    (rough_search : String → Nat → List α)
    (precise_rerank : String → List α → List α)
    (context_optimize : List α → List α)
    (question_embedding : List ℚ) (question : String) (top_k : Nat) :
    (retrieve_chunks vector_search keyword_search extract_keywords
        merge_and_rerank question_embedding question top_k).2 = 2 * top_k ∧
    (hierarchical_retrieve rough_search precise_rerank context_optimize
        question top_k).2 = 4 * top_k := by
  constructor <;>
    simp [retrieve_chunks, hierarchical_retrieve, Nat.mul_comm]

/-- Claim C8: an empty question and a question over the 1000-character
limit are both rejected with a validation error, and the outcome is
independent of the retrieval stage (no retrieval work affects it). -/
theorem validation_rejects_malformed {α : Type}
    (content_check injection_check : String → Bool)
    (retrieve : String → List α) (question : String)
    (h : question.length = 0 ∨ 1000 < question.length) :
    ask_pipeline content_check injection_check retrieve question
      = Except.error ValidationError.request_invalid ∧
    ∀ retrieve2 : String → List α,
      ask_pipeline content_check injection_check retrieve question
        = ask_pipeline content_check injection_check retrieve2 question := by
  rcases h with h | h
  · refine ⟨?_, fun retrieve2 => ?_⟩ <;>
      simp [ask_pipeline, validate_qarequest_question, h]
  · have h1 : ¬ question.length < 1 := by omega
    refine ⟨?_, fun retrieve2 => ?_⟩ <;>
      simp [ask_pipeline, validate_qarequest_question, h, h1]

/-- Witness for claim C8's theorem: the empty question is rejected. -/
theorem validation_rejects_empty_witness :
    ask_pipeline (fun _ => false) (fun _ => false)
        (fun _ => ([] : List Nat)) ""
      = Except.error ValidationError.request_invalid :=
  (validation_rejects_malformed (fun _ => false) (fun _ => false)
    (fun _ => ([] : List Nat)) "" (Or.inl rfl)).1

/-- Claim C3: Closed moves to Open only after exactly failure_threshold
consecutive failures (under the threshold it stays Closed with the exact
count, and the threshold-th failure opens it); Open admits nothing and
moves to HalfOpen only once recovery_timeout has elapsed since the
failure that opened it, never earlier; a successful HalfOpen trial closes
the circuit and resets the counter, a failed one reopens it and restarts
the timeout. -/
theorem circuit_breaker_transitions (ft rt : Nat) (hft : 1 ≤ ft) :
    (∀ ts : List Nat, ts.length < ft →
        ((CircuitBreaker.init ft rt).applyFailures ts).state = CBState.closed ∧
        ((CircuitBreaker.init ft rt).applyFailures ts).failure_count
          = ts.length) ∧
    (∀ (ts : List Nat) (t : Nat), ts.length = ft - 1 →
        ((CircuitBreaker.init ft rt).applyFailures (ts ++ [t])).state
          = CBState.opened ∧
        ((CircuitBreaker.init ft rt).applyFailures (ts ++ [t])).last_failure_time
          = some t) ∧
    (∀ (cb : CircuitBreaker) (t now : Nat), cb.state = CBState.opened →
        cb.last_failure_time = some t →
        (now < t + cb.recovery_timeout → cb.beforeCall now = (cb, false)) ∧
        (t + cb.recovery_timeout ≤ now →
          cb.beforeCall now = ({ cb with state := CBState.halfOpen }, true))) ∧
    (∀ (cb : CircuitBreaker) (now : Nat), cb.state = CBState.halfOpen →
        cb.onSuccess.state = CBState.closed ∧
        cb.onSuccess.failure_count = 0 ∧
        (cb.onFailure now).state = CBState.opened ∧
        (cb.onFailure now).last_failure_time = some now) := by
  refine ⟨?_, ?_, ?_, ?_⟩
  · intro ts hlen
    have h := applyFailures_closed ts (CircuitBreaker.init ft rt) rfl
      (by show 0 + ts.length < ft; omega)
    refine ⟨h.1, ?_⟩
    rw [h.2.1]
    show 0 + ts.length = ts.length
    omega
  · intro ts t hlen
    have h := applyFailures_closed ts (CircuitBreaker.init ft rt) rfl
      (by show 0 + ts.length < ft; omega)
    rw [applyFailures_append]
    rcases hcb : (CircuitBreaker.init ft rt).applyFailures ts
      with ⟨fc1, ft1, rt1, st1, l1⟩
    rw [hcb] at h
    have h1 : st1 = CBState.closed := h.1
    have h2 : fc1 = 0 + ts.length := h.2.1
    have h3 : ft1 = ft := h.2.2.1
    subst h1
    have hle : ft1 ≤ fc1 + 1 := by omega
    simp [CircuitBreaker.applyFailures, CircuitBreaker.call,
      CircuitBreaker.beforeCall, CircuitBreaker.onFailure, hle]
  · intro cb t now hs hl
    obtain ⟨fc, ft1, rt1, st, l⟩ := cb
    have hst : st = CBState.opened := hs
    have hlf : l = some t := hl
    subst hst; subst hlf
    constructor
    · intro hlt
      have hlt2 : now < t + rt1 := hlt
      have hn : ¬ (t + rt1 ≤ now) := by omega
      simp [CircuitBreaker.beforeCall, hn]
    · intro hge
      have hg : t + rt1 ≤ now := hge
      simp [CircuitBreaker.beforeCall, hg]
  · intro cb now hs
    obtain ⟨fc, ft1, rt1, st, l⟩ := cb
    have hst : st = CBState.halfOpen := hs
    subst hst
    simp [CircuitBreaker.onSuccess, CircuitBreaker.onFailure]

/-- Witness for claim C3's theorem: with the source defaults
failure_threshold = 5, recovery_timeout = 60, four consecutive failures
leave the circuit Closed, and the fifth opens it. -/
theorem circuit_breaker_witness :
    ((CircuitBreaker.init 5 60).applyFailures [1, 2, 3, 4]).state
        = CBState.closed ∧
    ((CircuitBreaker.init 5 60).applyFailures ([1, 2, 3, 4] ++ [9])).state
        = CBState.opened :=
  ⟨((circuit_breaker_transitions 5 60 (by decide)).1 [1, 2, 3, 4]
      (by decide)).1,
   ((circuit_breaker_transitions 5 60 (by decide)).2.1 [1, 2, 3, 4] 9
      (by decide)).1⟩

/-- Claim C4: the degradation chain tries a cached answer first, then raw
retrieved chunks labeled as unsummarized sources, then the static
apology; and whenever the generation circuit is Open (or the live call
fails) with a cached answer present, the degraded response's tier is
cached_answer — never apology or raw_sources. -/
theorem degradation_chain_order (a : String) (live cached : Option String)
    (chunks : List String) (r : Option (List String)) :
    (degradation_chain (some a) r).tier = DegradedTier.cached_answer ∧
    (degradation_chain none (some chunks)).tier = DegradedTier.raw_sources ∧
    (degradation_chain none none).tier = DegradedTier.apology ∧
    generate_with_fallback true live (some a) r
      = RAGResult.degraded ⟨DegradedTier.cached_answer, a⟩ ∧
    generate_with_fallback false none cached r
      = RAGResult.degraded (degradation_chain cached r) := by
  simp [degradation_chain, generate_with_fallback]

/-- Claim C6: for every session history and token budget, the context
window produced by get_context_window has an estimated token count within
the budget. -/
theorem context_window_within_budget (history : List QATurn)
    (token_budget : Nat) :
    (get_context_window history token_budget).estimated_token_count
      ≤ token_budget := by
  unfold get_context_window
  exact compress_window_le token_budget _ _

/-- Witness for claim C10's theorem at a concrete statistics state. -/
theorem hit_rate_spec_witness :
    0 ≤ CacheStats.hit_rate ⟨3, 1, 2, 0, 0⟩ ∧
      CacheStats.hit_rate ⟨3, 1, 2, 0, 0⟩ ≤ 1 :=
  ⟨(hit_rate_spec ⟨3, 1, 2, 0, 0⟩).2.2.1, (hit_rate_spec ⟨3, 1, 2, 0, 0⟩).2.2.2⟩
